import Mathlib

/-!
Shallow embedding of the decode core of the ffmpeg-client repository
(src/VideoClient/video/ffmpegdecoder.cpp), together with theorems settling
the specification claims about it.

Conventions of the embedding:
* machine integers (int, int64_t, unsigned) are modelled as Int / Nat; none of
  the modelled arithmetic can overflow in the source paths considered;
* pointers are modelled as Bool ("non-null") or Option;
* a C++ null-pointer dereference (undefined behavior) is modelled as the
  `none` outcome of a function returning Option;
* the fields of FFmpegDecoder keep their source names (m_bIsFile,
  m_seekDuration, ...); free functions of the ffmpeg / C library that the
  code calls (fread, _fseeki64, ...) are modelled under their own names.
-/

namespace FFmpegClient

/-- FFmpeg sentinel for "no timestamp": AV_NOPTS_VALUE = INT64_MIN. -/
def AV_NOPTS_VALUE : Int := -(2 ^ 63)

/-- FFmpeg error code FFERRTAG( 'E','O','F',' ') returned at end of file. -/
def AVERROR_EOF : Int := -541478725

/-- Pixel-format tag for DXVA2 hardware surfaces (AV_PIX_FMT_DXVA2_VLD).
The exact numeric value is irrelevant to the claims; only equality tests
against it occur in the source. -/
def AV_PIX_FMT_DXVA2_VLD : Int := 53

/-- Model of the relevant part of an AVFrame (VideoFrame::m_image).
`unreffed` records whether av_frame_unref has been called on the frame,
releasing its (possibly hardware-owned) buffers. -/
structure AVFrameModel where
  format : Int
  sample_aspect_ratio_num : Int
  sample_aspect_ratio_den : Int
  unreffed : Bool
deriving DecidableEq

/-- av_frame_unref releases the frame's buffer references. -/
def av_frame_unref (f : AVFrameModel) : AVFrameModel :=
  { f with unreffed := true }

/-- Model of VideoFrame: decoded image plus the converted BGR buffer
(pBGR modelled as "pointer is non-null") and its dimensions. -/
structure VideoFrame where
  m_image : AVFrameModel
  pBGR : Bool
  m_nImageWidth : Int
  m_nImageHeight : Int
deriving DecidableEq

/-- Modelled from the spec: FrameQueue (class of m_videoFramesQueue, not part
of the examined sources) is a FIFO of VideoFrames; canPop reports whether the
queue is non-empty so that its front can be popped. -/
def canPop (q : List VideoFrame) : Bool := !q.isEmpty

/-- The mutable FFmpegDecoder state touched by the modelled member functions.
Worker-thread handles are modelled by whether the thread object exists
(m_mainParseThread != nullptr); condition-variable / queue notifications are
modelled by flags recording that a notification was issued. -/
structure DecoderState where
  m_bIsFile : Bool
  mainParseThread : Bool
  m_seekDuration : Int
  m_generation : Nat
  m_videoFramesQueue : List VideoFrame
  m_frameDisplayingRequested : Bool
  m_videoResetting : Bool
  packetsNotified : Bool
  framesCVNotified : Bool
deriving DecidableEq

namespace FFmpegDecoder

/-- FFmpegDecoder::seekDuration (ffmpegdecoder.cpp lines 646-656).
Returns the bool result and the updated state.  The C++ condition
`m_mainParseThread && m_seekDuration.exchange(duration) == AV_NOPTS_VALUE`
short-circuits: the atomic exchange is performed only when the parse thread
exists, and the packet queue is notified only when the exchanged-out value
was the AV_NOPTS_VALUE sentinel. -/
def seekDuration (s : DecoderState) (duration : Int) : Bool × DecoderState :=
  if s.m_bIsFile = false then (false, s)
  else if s.mainParseThread then
    let old := s.m_seekDuration
    let s1 := { s with m_seekDuration := duration }
    if old = AV_NOPTS_VALUE then (true, { s1 with packetsNotified := true })
    else (true, s1)
  else (true, s)

/-- FFmpegDecoder::finishedDisplayingFrame (ffmpegdecoder.cpp lines 627-644).
Under the frame-queue mutex: if the acknowledged generation matches the live
generation and the queue can pop, the front frame is unreferenced first when
it is a DXVA2 hardware frame and then popped.  m_frameDisplayingRequested is
cleared and the frames condition variable notified in every case.
The second component returns the popped frame (in its state at pop time) so
that theorems can speak about it; `none` means nothing was popped. -/
def finishedDisplayingFrame (s : DecoderState) (generation : Nat) :
    DecoderState × Option VideoFrame :=
  let step :=
    if generation = s.m_generation ∧ canPop s.m_videoFramesQueue then
      match s.m_videoFramesQueue with
      | [] => (s, none)
      | f :: rest =>
        let f1 := if f.m_image.format = AV_PIX_FMT_DXVA2_VLD then
            { f with m_image := av_frame_unref f.m_image }
          else f
        ({ s with m_videoFramesQueue := rest }, some f1)
    else (s, none)
  ({ step.1 with m_frameDisplayingRequested := false, framesCVNotified := true },
   step.2)

/-- Result of FFmpegDecoder::getFrameRenderingData.  `noData` is the
`return false` paths; `undefinedBehavior` models calling front() on an empty
frame queue (the source performs no emptiness check); `ok` carries the data
written into the output FrameRenderingData. -/
inductive RenderResult
  | noData
  | undefinedBehavior
  | ok (width height aspectNum aspectDen : Int)
deriving DecidableEq

/-- FFmpegDecoder::getFrameRenderingData (ffmpegdecoder.cpp lines 684-710).
Fails when no frame display was requested, the parse thread is absent, or a
video reset is in progress; then inspects the front frame of the frame queue
and fails when its converted buffer is null or a dimension is zero; otherwise
returns dimensions, buffer and aspect ratio, the latter defaulting to 1:1
when the stored sample aspect ratio has a zero component. -/
def getFrameRenderingData (s : DecoderState) : RenderResult :=
  if !s.m_frameDisplayingRequested ∨ !s.mainParseThread ∨ s.m_videoResetting then
    RenderResult.noData
  else
    match s.m_videoFramesQueue with
    | [] => RenderResult.undefinedBehavior
    | f :: _ =>
      if !f.pBGR ∨ f.m_nImageWidth = 0 ∨ f.m_nImageHeight = 0 then
        RenderResult.noData
      else if f.m_image.sample_aspect_ratio_num ≠ 0 ∧
          f.m_image.sample_aspect_ratio_den ≠ 0 then
        RenderResult.ok f.m_nImageWidth f.m_nImageHeight
          f.m_image.sample_aspect_ratio_num f.m_image.sample_aspect_ratio_den
      else
        RenderResult.ok f.m_nImageWidth f.m_nImageHeight 1 1

end FFmpegDecoder

/-! The C file API used by FFmpegDecoder::IOContext: a file is modelled by
its byte content and the current position.  Positions may point beyond the
end of file (fseek allows it); seeking to a negative position fails and
leaves the position unchanged. -/

/-- fseek whence constant SEEK_SET. -/
def SEEK_SET : Int := 0

/-- fseek whence constant SEEK_CUR. -/
def SEEK_CUR : Int := 1

/-- fseek whence constant SEEK_END. -/
def SEEK_END : Int := 2

/-- AVSEEK_SIZE = 0x10000: whence value asking the seek callback for the
total size of the stream. -/
def AVSEEK_SIZE : Int := 65536

/-- A stdio FILE: byte content plus current position. -/
structure FileState where
  content : List Nat
  pos : Int
deriving DecidableEq

/-- Total byte size of the file. -/
def fileSize (fs : FileState) : Int := fs.content.length

/-- The position an fseek call with the given offset and whence aims at;
none for an invalid whence value. -/
def seekTarget (fs : FileState) (offset : Int) (whence : Int) : Option Int :=
  if whence = SEEK_SET then some offset
  else if whence = SEEK_CUR then some (fs.pos + offset)
  else if whence = SEEK_END then some (fileSize fs + offset)
  else none

/-- _fseeki64: returns 0 and moves the position on success, a nonzero value
with the position unchanged on failure (invalid whence or negative target). -/
def _fseeki64 (fs : FileState) (offset : Int) (whence : Int) : Int × FileState :=
  match seekTarget fs offset whence with
  | none => (1, fs)
  | some t => if t < 0 then (1, fs) else (0, { fs with pos := t })

/-- _ftelli64: the current position. -/
def _ftelli64 (fs : FileState) : Int := fs.pos

/-- fread of count elements of size 1: reads min(count, bytes-left) bytes,
advances the position by the amount read and returns (amount read, bytes
read, updated file). Reading at or past end of file reads 0 bytes. -/
def fread (fs : FileState) (count : Nat) : Nat × List Nat × FileState :=
  let avail := (fileSize fs - fs.pos).toNat
  let k := min count avail
  ((k), (fs.content.drop fs.pos.toNat).take k, { fs with pos := fs.pos + k })

namespace FFmpegDecoder

namespace IOContext

/-- IOContext buffer size: 1024 * 64 bytes (ffmpegdecoder.cpp line 157). -/
def bufferSize : Nat := 1024 * 64

/-- FFmpegDecoder::IOContext::IOReadFunc (ffmpegdecoder.cpp lines 114-124):
freads up to buf_size bytes; returns AVERROR_EOF when 0 bytes were read and
the byte count otherwise.  Also returns the updated file and the bytes that
were placed into the caller's buffer. -/
def IOReadFunc (fs : FileState) (buf_size : Nat) : Int × FileState × List Nat :=
  let r := fread fs buf_size
  if r.1 = 0 then (AVERROR_EOF, r.2.2, r.2.1)
  else ((r.1 : Int), r.2.2, r.2.1)

/-- FFmpegDecoder::IOContext::IOSeekFunc (ffmpegdecoder.cpp lines 128-152):
for AVSEEK_SIZE, saves the position, seeks to the end to measure the size,
restores the saved position and returns the size; otherwise performs the
requested seek, returning the new position on success and -1 on failure. -/
def IOSeekFunc (fs : FileState) (pos : Int) (whence : Int) : Int × FileState :=
  if whence = AVSEEK_SIZE then
    let current := _ftelli64 fs
    let r1 := _fseeki64 fs 0 SEEK_END
    if r1.1 ≠ 0 then (-1, r1.2)
    else
      let result := _ftelli64 r1.2
      let r2 := _fseeki64 r1.2 current SEEK_SET
      (result, r2.2)
  else
    let r := _fseeki64 fs pos whence
    if r.1 ≠ 0 then (-1, r.2)
    else (_ftelli64 r.2, r.2)

/-- Model of the relevant part of an AVFormatContext handed to
initAVFormatContext: whether the custom I/O context and flag were installed
and the probed input format (the probe itself is the external library call
av_probe_input_format; it is passed in as a function from the probe buffer
and the declared probe size to a format id). -/
structure AVFormatContextModel where
  pb_set : Bool
  custom_io_flag : Bool
  iformat : Option Nat
deriving DecidableEq

/-- FFmpegDecoder::IOContext::initAVFormatContext (ffmpegdecoder.cpp lines
195-214): installs the custom I/O context, freads one buffer's worth from
the file, and if at least one byte was read rewinds to offset zero and
probes the input format from the buffer (with declared size bufferSize - 1);
when 0 bytes were read it returns early, probing nothing.
The probe buffer passed to the external call holds the bytes just read
(its remaining bytes are uninitialized memory; the model passes only the
read bytes). -/
def initAVFormatContext (probe : List Nat → Nat → Nat) (fs : FileState)
    (pCtx : AVFormatContextModel) : AVFormatContextModel × FileState :=
  let ctx1 := { pCtx with pb_set := true, custom_io_flag := true }
  let r := fread fs bufferSize
  if r.1 = 0 then (ctx1, r.2.2)
  else
    let r2 := _fseeki64 r.2.2 0 SEEK_SET
    ({ ctx1 with iformat := some (probe r.2.1 (bufferSize - 1)) }, r2.2)

end IOContext

end FFmpegDecoder

/-! Open-time processing: resetVideoProcessing and openDecoder.  The calls
into the ffmpeg library (allocation, parameter copy, decoder lookup, dxva2
initialization, codec open, stream probing) are external; their success or
failure and the values they produce are inputs of the model. -/

/-- Codec type of a stream (AVMEDIA_TYPE_*). -/
inductive CodecType
  | video
  | audio
  | other
deriving DecidableEq

/-- The per-stream data openDecoder reads: codec type, start_time and
duration (in the stream time base). -/
structure StreamInfo where
  codecType : CodecType
  startTime : Int
  duration : Int
deriving DecidableEq

/-- Model of the AVCodecContext fields written during resetVideoProcessing.
`ist_attached` models whether the per-stream hardware negotiation record
(the InputStream* stored in the codec context's user-data pointer field) is
attached; `hw_get_buffer2` and `hw_get_format` model the installation of the
hardware buffer-allocation and pixel-format callbacks. -/
structure CodecContextModel where
  width : Int
  height : Int
  coded_width : Int
  coded_height : Int
  thread_count : Int
  thread_safe_callbacks : Int
  flags2_fast : Bool
  hw_get_buffer2 : Bool
  hw_get_format : Bool
  ist_attached : Bool
deriving DecidableEq

/-- The external-call outcomes and stream parameters that determine the run
of resetVideoProcessing. -/
structure ResetVideoInput where
  videoStreamNumber : Int
  allocOk : Bool
  paramsOk : Bool
  codecFound : Bool
  dxva2Ok : Bool
  codecOpenOk : Bool
  width : Int
  height : Int
deriving DecidableEq

namespace FFmpegDecoder

/-- FFmpegDecoder::resetVideoProcessing (ffmpegdecoder.cpp lines 521-595),
with USE_HWACCEL defined (as in the source).  Takes the prior value of
m_bValidHardWare (it is only written inside the hardware branch) and returns
(function result, final m_videoCodecContext - none when it was freed by the
scope guard on failure or never allocated, new m_bValidHardWare).
When no video stream was selected (videoStreamNumber < 0) the whole body is
skipped and the function succeeds with no codec context. -/
def resetVideoProcessing (inp : ResetVideoInput) (validHW0 : Bool) :
    Bool × Option CodecContextModel × Bool :=
  if 0 ≤ inp.videoStreamNumber then
    if inp.allocOk = false then (false, none, validHW0)
    else if inp.paramsOk = false then (false, none, validHW0)
    else if inp.codecFound = false then (false, none, validHW0)
    else
      let ctx0 : CodecContextModel :=
        { width := inp.width
          height := inp.height
          coded_width := inp.width
          coded_height := inp.height
          thread_count := 1
          thread_safe_callbacks := 0
          flags2_fast := false
          hw_get_buffer2 := false
          hw_get_format := false
          ist_attached := true }
      let hw :=
        if inp.dxva2Ok then
          ({ ctx0 with
              hw_get_buffer2 := true
              hw_get_format := true
              thread_safe_callbacks := 1 }, true)
        else
          ({ ctx0 with
              ist_attached := false
              thread_count := 2
              flags2_fast := true }, false)
      if inp.codecOpenOk = false then (false, none, hw.2)
      else if inp.width ≤ 0 ∨ inp.height ≤ 0 then (false, none, hw.2)
      else (true, some hw.1, hw.2)
  else (true, none, validHW0)

end FFmpegDecoder

/-- Events delivered to the registered IFrameDecoder listener. -/
inductive ListenerEvent
  | fileLoaded
  | changedFramePosition (startPos currentPos endPos : Int)
  | fileReleased
  | decoderClosed
  | playingFinished
deriving DecidableEq

/-- Everything external that determines a run of openDecoder: the call
arguments (isFile, bCamera, bDesktop, listener registered), the behavior of
the file system and of the ffmpeg library calls, and the stream table found
by avformat_find_stream_info.  `fallbackStart` and `fallbackDuration` are
the values of the source's floating-point rescalings of the format-context
start_time and duration (lines 495 and 499); floating point is not modelled,
so these results are inputs. -/
structure MediaInput where
  isFile : Bool
  bCamera : Bool
  bDesktop : Bool
  isRegularFile : Bool
  fileOpens : Bool
  vfwcapFound : Bool
  gdigrabFound : Bool
  openInputError : Int
  findStreamInfoOk : Bool
  streams : List StreamInfo
  fmtStartTime : Int
  fmtDuration : Int
  fallbackStart : Int
  fallbackDuration : Int
  listener : Bool
  codecAllocOk : Bool
  codecParamsOk : Bool
  codecFound : Bool
  dxva2Ok : Bool
  codecOpenOk : Bool
  codecWidth : Int
  codecHeight : Int
deriving DecidableEq

/-- Observable outcome of openDecoder: the returned bool, the listener
events fired during the call in order, the computed m_startTime and
m_duration, m_bValidHardWare, and whether any worker thread was started
(openDecoder starts none; play() does). -/
structure OpenOutcome where
  success : Bool
  events : List ListenerEvent
  m_startTime : Int
  m_duration : Int
  m_bValidHardWare : Bool
  startedWorkers : Bool
deriving DecidableEq

/-- The outcome of every failing return path of openDecoder: false result,
no listener events, no workers started.  (Member time fields are dead on
these paths; the decoder is closed before reuse.) -/
def openFailed : OpenOutcome :=
  { success := false
    events := []
    m_startTime := 0
    m_duration := 0
    m_bValidHardWare := false
    startedWorkers := false }

/-- The listener notifications of a successful openDecoder (lines 511-515):
with a registered listener, fileLoaded() and then
changedFramePosition(m_startTime, m_startTime, m_duration + m_startTime);
without one, nothing. -/
def openEvents (listener : Bool) (st dur : Int) : List ListenerEvent :=
  if listener then
    [ListenerEvent.fileLoaded,
     ListenerEvent.changedFramePosition st st (dur + st)]
  else []

namespace FFmpegDecoder

/-- The video-stream search loop of openDecoder (lines 468-480):
`for (unsigned i = nb_streams; i--;)` walks the streams from the last down
to the first; each video stream overwrites m_videoStream /
m_videoStreamNumber (the `break` leaves only the switch), so the final value
is the lowest-indexed video stream.  Returns that index and stream. -/
def videoStreamScan (streams : List StreamInfo) : Option (Nat × StreamInfo) :=
  streams.enum.reverse.foldl
    (fun acc p =>
      match p.2.codecType with
      | CodecType.video => some p
      | _ => acc)
    none

/-- The ResetVideoInput assembled from a MediaInput and the selected video
stream number. -/
def resetInputOf (inp : MediaInput) (idx : Int) : ResetVideoInput :=
  { videoStreamNumber := idx
    allocOk := inp.codecAllocOk
    paramsOk := inp.codecParamsOk
    codecFound := inp.codecFound
    dxva2Ok := inp.dxva2Ok
    codecOpenOk := inp.codecOpenOk
    width := inp.codecWidth
    height := inp.codecHeight }

/-- FFmpegDecoder::openDecoder (ffmpegdecoder.cpp lines 392-519).
Returns none when the run reaches undefined behavior: after the stream scan,
lines 492-499 read timeStream->start_time and timeStream->duration, and
timeStream is the null pointer whenever no video stream was found (the
m_videoStreamNumber == -1 branch at line 483 only logs).  All failure
returns yield openFailed: they fire no listener events and start no workers.
On success, with a registered listener, fileLoaded() and then
changedFramePosition(m_startTime, m_startTime, m_duration + m_startTime)
fire (lines 511-515). -/
def openDecoder (inp : MediaInput) : Option OpenOutcome :=
  if inp.isFile ∧ inp.isRegularFile = false then some openFailed
  else if inp.isFile ∧ inp.fileOpens = false then some openFailed
  else
    let openErr : Option Int :=
      if inp.bCamera ∧ ¬ inp.bDesktop then
        if inp.vfwcapFound then some inp.openInputError else none
      else if ¬ inp.bCamera ∧ inp.bDesktop then
        if inp.gdigrabFound then some inp.openInputError else none
      else some inp.openInputError
    match openErr with
    | none => some openFailed
    | some err =>
      if err ≠ 0 then some openFailed
      else if inp.findStreamInfoOk = false then some openFailed
      else
        match videoStreamScan inp.streams with
        | none => none
        | some iv =>
          let vs := iv.2
          let st :=
            if vs.startTime > 0 then vs.startTime
            else if inp.fmtStartTime = AV_NOPTS_VALUE then 0
            else inp.fallbackStart
          let dur :=
            if vs.duration > 0 then vs.duration
            else if inp.fmtDuration = AV_NOPTS_VALUE then 0
            else inp.fallbackDuration
          let r := resetVideoProcessing (resetInputOf inp (Int.ofNat iv.1)) false
          if r.1 = false then
            some { openFailed with
                    m_startTime := st
                    m_duration := dur
                    m_bValidHardWare := r.2.2 }
          else
            some { success := true
                   events := openEvents inp.listener st dur
                   m_startTime := st
                   m_duration := dur
                   m_bValidHardWare := r.2.2
                   startedWorkers := false }

end FFmpegDecoder

/-! Concrete sample values, used to evaluate the model on explicit inputs. -/

/-- A DXVA2 hardware frame with a 4:3 sample aspect ratio. -/
def hwFrame : VideoFrame :=
  { m_image :=
      { format := AV_PIX_FMT_DXVA2_VLD
        sample_aspect_ratio_num := 4
        sample_aspect_ratio_den := 3
        unreffed := false }
    pBGR := true
    m_nImageWidth := 640
    m_nImageHeight := 480 }

/-- A software frame whose stored sample aspect ratio has a zero numerator. -/
def zeroSarFrame : VideoFrame :=
  { m_image :=
      { format := 0
        sample_aspect_ratio_num := 0
        sample_aspect_ratio_den := 3
        unreffed := false }
    pBGR := true
    m_nImageWidth := 640
    m_nImageHeight := 480 }

/-- A frame whose converted buffer pointer is null. -/
def badFrame : VideoFrame := { zeroSarFrame with pBGR := false }

/-- A playing file-backed decoder with one queued hardware frame. -/
def baseState : DecoderState :=
  { m_bIsFile := true
    mainParseThread := true
    m_seekDuration := AV_NOPTS_VALUE
    m_generation := 7
    m_videoFramesQueue := [hwFrame]
    m_frameDisplayingRequested := true
    m_videoResetting := false
    packetsNotified := false
    framesCVNotified := false }

/-- The same decoder opened on a live (non-file) source. -/
def liveState : DecoderState := { baseState with m_bIsFile := false }

/-- The same decoder before play(): no parse worker thread exists. -/
def noThreadState : DecoderState := { baseState with mainParseThread := false }

/-- Decoder whose front frame has a degenerate sample aspect ratio. -/
def renderState : DecoderState := { baseState with m_videoFramesQueue := [zeroSarFrame] }

/-- Decoder with no pending frame-display request. -/
def noReqState : DecoderState := { baseState with m_frameDisplayingRequested := false }

/-- Decoder whose front frame has a null converted buffer. -/
def badFrontState : DecoderState := { baseState with m_videoFramesQueue := [badFrame] }

/-- A three-byte file positioned at offset 1. -/
def file3 : FileState := { content := [10, 20, 30], pos := 1 }

/-- A three-byte file positioned at offset 0 (as handed to the demuxer). -/
def file123 : FileState := { content := [1, 2, 3], pos := 0 }

/-- The empty file source: it opens successfully but has no bytes. -/
def emptyFile : FileState := { content := [], pos := 0 }

/-- A fresh AVFormatContext before initAVFormatContext runs. -/
def sampleCtx : FFmpegDecoder.IOContext.AVFormatContextModel :=
  { pb_set := false, custom_io_flag := false, iformat := none }

/-- A concrete stand-in for the external av_probe_input_format call. -/
def sampleProbe : List Nat → Nat → Nat := fun bytes size => bytes.length + size

/-- Reset input with every external call succeeding. -/
def hwResetInput : ResetVideoInput :=
  { videoStreamNumber := 0
    allocOk := true
    paramsOk := true
    codecFound := true
    dxva2Ok := true
    codecOpenOk := true
    width := 640
    height := 480 }

/-- An openDecoder input for a regular file whose only stream is a video
stream starting at 0 with duration 10, every external call succeeding. -/
def videoOpenInput : MediaInput :=
  { isFile := true
    bCamera := false
    bDesktop := false
    isRegularFile := true
    fileOpens := true
    vfwcapFound := false
    gdigrabFound := false
    openInputError := 0
    findStreamInfoOk := true
    streams := [{ codecType := CodecType.video, startTime := 0, duration := 10 }]
    fmtStartTime := AV_NOPTS_VALUE
    fmtDuration := AV_NOPTS_VALUE
    fallbackStart := 0
    fallbackDuration := 0
    listener := true
    codecAllocOk := true
    codecParamsOk := true
    codecFound := true
    dxva2Ok := true
    codecOpenOk := true
    codecWidth := 640
    codecHeight := 480 }

/-- The same input whose only stream is an audio stream: the media contains
no video stream at all. -/
def audioOnlyInput : MediaInput :=
  { videoOpenInput with
      streams := [{ codecType := CodecType.audio, startTime := 0, duration := 10 }] }

/-- The outcome openDecoder produces on videoOpenInput. -/
def videoOpenOutcome : OpenOutcome :=
  { success := true
    events := [ListenerEvent.fileLoaded,
      ListenerEvent.changedFramePosition 0 0 10]
    m_startTime := 0
    m_duration := 10
    m_bValidHardWare := true
    startedWorkers := false }

/-! Theorems settling the claims. -/

/-- C5: seekDuration returns false for a non-file source and changes nothing
(no seek target is posted); for a file-backed source it returns true. -/
theorem c5_seek_policy (s : DecoderState) (t : Int) :
    (s.m_bIsFile = false → FFmpegDecoder.seekDuration s t = (false, s)) ∧
    (s.m_bIsFile = true → (FFmpegDecoder.seekDuration s t).1 = true) := by
  constructor <;> intro h <;>
    simp [FFmpegDecoder.seekDuration, h, apply_ite]

/-- C5 witness: evaluated on a live source and on a file source. -/
theorem c5_witness :
    FFmpegDecoder.seekDuration liveState 5 = (false, liveState) ∧
    (FFmpegDecoder.seekDuration baseState 5).1 = true :=
  ⟨(c5_seek_policy liveState 5).1 rfl, (c5_seek_policy baseState 5).2 rfl⟩

/-- C10: on a file-backed source with no parse worker thread running,
seekDuration still returns true but leaves the whole state unchanged: the
pending-seek slot is not written and no queue is notified (the short-circuit
of the C++ conjunction skips the atomic exchange). -/
theorem c10_seek_no_worker (s : DecoderState) (t : Int)
    (hFile : s.m_bIsFile = true) (hThread : s.mainParseThread = false) :
    FFmpegDecoder.seekDuration s t = (true, s) := by
  simp [FFmpegDecoder.seekDuration, hFile, hThread]

/-- C10 witness: evaluated on a file source before play(). -/
theorem c10_witness :
    FFmpegDecoder.seekDuration noThreadState 42 = (true, noThreadState) :=
  c10_seek_no_worker noThreadState 42 rfl rfl

/-- C3: two seekDuration calls with the parse worker running and no worker
observation in between leave the single pending-seek slot holding exactly
the second target. -/
theorem c3_seek_coalescing (s : DecoderState) (t1 t2 : Int)
    (hFile : s.m_bIsFile = true) (hThread : s.mainParseThread = true) :
    ((FFmpegDecoder.seekDuration
        ((FFmpegDecoder.seekDuration s t1).2) t2).2).m_seekDuration = t2 := by
  simp [FFmpegDecoder.seekDuration, hFile, hThread, apply_ite]

/-- C3 witness: seek to 3 then 5 on a playing file decoder leaves 5. -/
theorem c3_witness :
    ((FFmpegDecoder.seekDuration
        ((FFmpegDecoder.seekDuration baseState 3).2) 5).2).m_seekDuration = 5 :=
  c3_seek_coalescing baseState 3 5 rfl rfl

/-- C2: finishedDisplayingFrame pops the front frame iff the acknowledged
generation matches the live generation and the frame queue is non-empty;
a popped DXVA2 hardware frame has been unreferenced before the pop (and a
non-DXVA2 frame is popped untouched); on a generation mismatch the queue is
left unchanged. -/
theorem c2_finished_displaying (s : DecoderState) (g : Nat) :
    ((FFmpegDecoder.finishedDisplayingFrame s g).2.isSome = true ↔
      (g = s.m_generation ∧ s.m_videoFramesQueue ≠ [])) ∧
    (∀ f rest, s.m_videoFramesQueue = f :: rest → g = s.m_generation →
      (FFmpegDecoder.finishedDisplayingFrame s g).1.m_videoFramesQueue = rest ∧
      (f.m_image.format = AV_PIX_FMT_DXVA2_VLD →
        (FFmpegDecoder.finishedDisplayingFrame s g).2 =
          some { f with m_image := av_frame_unref f.m_image }) ∧
      (f.m_image.format ≠ AV_PIX_FMT_DXVA2_VLD →
        (FFmpegDecoder.finishedDisplayingFrame s g).2 = some f)) ∧
    (g ≠ s.m_generation →
      (FFmpegDecoder.finishedDisplayingFrame s g).1.m_videoFramesQueue =
        s.m_videoFramesQueue) := by
  by_cases hg : g = s.m_generation
  · cases hq : s.m_videoFramesQueue with
    | nil =>
      refine ⟨?_, ?_, fun hne => absurd hg hne⟩
      · simp [FFmpegDecoder.finishedDisplayingFrame, canPop, hq, hg]
      · intro f rest hq2
        exact absurd hq2 (by simp)
    | cons f rest =>
      refine ⟨?_, ?_, fun hne => absurd hg hne⟩
      · simp [FFmpegDecoder.finishedDisplayingFrame, canPop, hq, hg]
      · intro f0 rest0 hq2 _
        injection hq2 with h1 h2
        subst h1; subst h2
        by_cases hfmt : f.m_image.format = AV_PIX_FMT_DXVA2_VLD <;>
          simp [FFmpegDecoder.finishedDisplayingFrame, canPop, hq, hg, hfmt]
  · refine ⟨?_, ?_, ?_⟩
    · simp [FFmpegDecoder.finishedDisplayingFrame, canPop, hg]
    · intro f rest hq hgen; exact absurd hgen hg
    · intro _
      simp [FFmpegDecoder.finishedDisplayingFrame, canPop, hg]

/-- C2 witness: matching generation pops the (unreferenced) hardware frame;
a mismatching generation leaves the queue unchanged. -/
theorem c2_witness :
    (FFmpegDecoder.finishedDisplayingFrame baseState 7).2.isSome = true ∧
    (FFmpegDecoder.finishedDisplayingFrame baseState 7).1.m_videoFramesQueue = [] ∧
    (FFmpegDecoder.finishedDisplayingFrame baseState 7).2 =
      some { hwFrame with m_image := av_frame_unref hwFrame.m_image } ∧
    (FFmpegDecoder.finishedDisplayingFrame baseState 8).1.m_videoFramesQueue =
      [hwFrame] :=
  ⟨((c2_finished_displaying baseState 7).1).mpr ⟨rfl, by simp [baseState]⟩,
   (((c2_finished_displaying baseState 7).2.1) hwFrame [] rfl rfl).1,
   (((c2_finished_displaying baseState 7).2.1) hwFrame [] rfl rfl).2.1 rfl,
   ((c2_finished_displaying baseState 8).2.2) (by simp [baseState])⟩

/-- C9: getFrameRenderingData fails when no frame display was requested, no
parse thread exists or the pipeline is resetting; fails when the front
frame's converted buffer is null or a dimension is zero; and when it
succeeds while the front frame's stored sample aspect ratio has a zero
component, the returned aspect ratio is 1:1. -/
theorem c9_frame_rendering_data (s : DecoderState) :
    ((s.m_frameDisplayingRequested = false ∨ s.mainParseThread = false ∨
        s.m_videoResetting = true) →
      FFmpegDecoder.getFrameRenderingData s =
        FFmpegDecoder.RenderResult.noData) ∧
    (∀ f rest, s.m_videoFramesQueue = f :: rest →
      (f.pBGR = false ∨ f.m_nImageWidth = 0 ∨ f.m_nImageHeight = 0) →
      FFmpegDecoder.getFrameRenderingData s =
        FFmpegDecoder.RenderResult.noData) ∧
    (∀ f rest w h n d, s.m_videoFramesQueue = f :: rest →
      FFmpegDecoder.getFrameRenderingData s =
        FFmpegDecoder.RenderResult.ok w h n d →
      (f.m_image.sample_aspect_ratio_num = 0 ∨
        f.m_image.sample_aspect_ratio_den = 0) →
      n = 1 ∧ d = 1) := by
  refine ⟨?_, ?_, ?_⟩
  · intro h
    rcases h with h | h | h <;>
      simp [FFmpegDecoder.getFrameRenderingData, h]
  · intro f rest hq hbad
    by_cases h1 : s.m_frameDisplayingRequested = false
    · simp [FFmpegDecoder.getFrameRenderingData, h1]
    · by_cases h2 : s.mainParseThread = false
      · simp [FFmpegDecoder.getFrameRenderingData, h2]
      · by_cases h3 : s.m_videoResetting = true
        · simp [FFmpegDecoder.getFrameRenderingData, h3]
        · rcases hbad with hb | hb | hb <;>
            simp [FFmpegDecoder.getFrameRenderingData, hq, hb,
              eq_true_of_ne_false h1, eq_true_of_ne_false h2,
              eq_false_of_ne_true h3]
  · intro f rest w h n d hq hok hsar
    by_cases h1 : s.m_frameDisplayingRequested = false
    · simp [FFmpegDecoder.getFrameRenderingData, h1] at hok
    · by_cases h2 : s.mainParseThread = false
      · simp [FFmpegDecoder.getFrameRenderingData, h2] at hok
      · by_cases h3 : s.m_videoResetting = true
        · simp [FFmpegDecoder.getFrameRenderingData, h3] at hok
        · have hfit : ¬ (f.m_image.sample_aspect_ratio_num ≠ 0 ∧
              f.m_image.sample_aspect_ratio_den ≠ 0) := by
            rcases hsar with hs | hs <;> simp [hs]
          by_cases hb : f.pBGR = false
          · simp [FFmpegDecoder.getFrameRenderingData, hq, hb,
              eq_true_of_ne_false h1, eq_true_of_ne_false h2,
              eq_false_of_ne_true h3] at hok
          · by_cases hw0 : f.m_nImageWidth = 0
            · simp [FFmpegDecoder.getFrameRenderingData, hq, hw0,
                eq_true_of_ne_false h1, eq_true_of_ne_false h2,
                eq_false_of_ne_true h3] at hok
            · by_cases hh0 : f.m_nImageHeight = 0
              · simp [FFmpegDecoder.getFrameRenderingData, hq, hh0,
                  eq_true_of_ne_false h1, eq_true_of_ne_false h2,
                  eq_false_of_ne_true h3] at hok
              · simp [FFmpegDecoder.getFrameRenderingData, hq, hfit,
                  eq_true_of_ne_false h1, eq_true_of_ne_false h2,
                  eq_false_of_ne_true h3, eq_true_of_ne_false hb,
                  hw0, hh0] at hok
                exact ⟨hok.2.2.1.symm, hok.2.2.2.symm⟩

/-- C9 witness: a missing display request fails, a null converted buffer
fails, and a degenerate sample aspect ratio yields the 1:1 default. -/
theorem c9_witness :
    FFmpegDecoder.getFrameRenderingData noReqState =
      FFmpegDecoder.RenderResult.noData ∧
    FFmpegDecoder.getFrameRenderingData badFrontState =
      FFmpegDecoder.RenderResult.noData ∧
    (1 : Int) = 1 ∧ (1 : Int) = 1 :=
  ⟨(c9_frame_rendering_data noReqState).1 (Or.inl rfl),
   (c9_frame_rendering_data badFrontState).2.1 badFrame [] rfl (Or.inl rfl),
   (c9_frame_rendering_data renderState).2.2 zeroSarFrame [] 640 480 1 1 rfl
     (by simp [renderState, baseState, FFmpegDecoder.getFrameRenderingData,
       zeroSarFrame]) (Or.inl rfl)⟩

/-- C6: the I/O adapter's seek callback answers AVSEEK_SIZE with the total
byte size of the source, leaving the position unchanged; an ordinary
absolute/relative/end-relative seek returns the new offset on success and
-1 on failure (position untouched); the read callback returns the number of
bytes read, or AVERROR_EOF when zero bytes are read. -/
theorem c6_io_callbacks (fs : FileState) (p off w : Int) (n : Nat)
    (hpos : 0 ≤ fs.pos) :
    FFmpegDecoder.IOContext.IOSeekFunc fs p AVSEEK_SIZE = (fileSize fs, fs) ∧
    (∀ t, seekTarget fs off w = some t →
      (0 ≤ t → FFmpegDecoder.IOContext.IOSeekFunc fs off w =
        (t, { fs with pos := t })) ∧
      (t < 0 → FFmpegDecoder.IOContext.IOSeekFunc fs off w = (-1, fs))) ∧
    ((fread fs n).1 = 0 →
      (FFmpegDecoder.IOContext.IOReadFunc fs n).1 = AVERROR_EOF) ∧
    (∀ k : Nat, (fread fs n).1 = k → 0 < k →
      (FFmpegDecoder.IOContext.IOReadFunc fs n).1 = (k : Int)) := by
  refine ⟨?_, ?_, ?_, ?_⟩
  · have hrestore : ¬ (fs.pos < 0) := not_lt.mpr hpos
    obtain ⟨content, pos⟩ := fs
    have hlen0 : ¬ ((content.length : Int) < 0) := by omega
    simp [FFmpegDecoder.IOContext.IOSeekFunc, _fseeki64, _ftelli64,
      seekTarget, fileSize, AVSEEK_SIZE, SEEK_SET, SEEK_CUR, SEEK_END,
      hlen0, hrestore]
  · intro t ht
    have hw : w ≠ AVSEEK_SIZE := by
      simp only [seekTarget] at ht
      split_ifs at ht with h1 h2 h3 <;>
        simp_all [SEEK_SET, SEEK_CUR, SEEK_END, AVSEEK_SIZE]
    constructor <;> intro hts
    · have hnlt : ¬ (t < 0) := not_lt.mpr hts
      simp [FFmpegDecoder.IOContext.IOSeekFunc, _fseeki64, _ftelli64, hw,
        ht, hnlt]
    · simp [FFmpegDecoder.IOContext.IOSeekFunc, _fseeki64, _ftelli64, hw,
        ht, hts]
  · intro h0
    simp [FFmpegDecoder.IOContext.IOReadFunc, h0]
  · intro k hk hkpos
    have hk0 : ¬ (k = 0) := by omega
    simp [FFmpegDecoder.IOContext.IOReadFunc, hk, hk0]

/-- C6 witness: on a three-byte file at offset 1, AVSEEK_SIZE reports 3 with
the position untouched, a relative seek by 1 lands at offset 2, and a
two-byte read returns 2. -/
theorem c6_witness :
    FFmpegDecoder.IOContext.IOSeekFunc file3 0 AVSEEK_SIZE = (3, file3) ∧
    FFmpegDecoder.IOContext.IOSeekFunc file3 1 SEEK_CUR =
      (2, { file3 with pos := 2 }) ∧
    (FFmpegDecoder.IOContext.IOReadFunc file3 2).1 = 2 :=
  ⟨(c6_io_callbacks file3 0 1 SEEK_CUR 2 (by decide)).1,
   ((c6_io_callbacks file3 0 1 SEEK_CUR 2 (by decide)).2.1 2 (by decide)).1
     (by decide),
   (c6_io_callbacks file3 0 1 SEEK_CUR 2 (by decide)).2.2.2 2 (by decide)
     (by decide)⟩

/-- C8 counterexample: the empty file source opens successfully, yet
initAVFormatContext performs no probe for it (the early return on a
zero-byte read): the probed input format stays unset, refuting the claim
for this successfully opened source. -/
theorem c8_counterexample_empty_source :
    (FFmpegDecoder.IOContext.initAVFormatContext sampleProbe emptyFile
        sampleCtx).1.iformat = none := by
  rfl

/-- C8 (amended to non-empty sources): handing a non-empty file source to
the demuxer, the adapter reads at most one buffer's worth, installs the
custom I/O context, probes the container format from the bytes read, and
rewinds the position to offset zero. -/
theorem c8_probe_and_rewind (probe : List Nat → Nat → Nat) (fs : FileState)
    (ctx : FFmpegDecoder.IOContext.AVFormatContextModel)
    (hpos : fs.pos = 0) (hne : fs.content ≠ []) :
    (fread fs FFmpegDecoder.IOContext.bufferSize).1 ≤
      FFmpegDecoder.IOContext.bufferSize ∧
    (FFmpegDecoder.IOContext.initAVFormatContext probe fs ctx).1.pb_set =
      true ∧
    (FFmpegDecoder.IOContext.initAVFormatContext probe fs ctx).1.custom_io_flag
      = true ∧
    (FFmpegDecoder.IOContext.initAVFormatContext probe fs ctx).1.iformat =
      some (probe
        (fs.content.take
          (min FFmpegDecoder.IOContext.bufferSize fs.content.length))
        (FFmpegDecoder.IOContext.bufferSize - 1)) ∧
    (FFmpegDecoder.IOContext.initAVFormatContext probe fs ctx).2.pos = 0 := by
  have hlen : 0 < fs.content.length := List.length_pos.mpr hne
  have hk : (fread fs FFmpegDecoder.IOContext.bufferSize).1 =
      min FFmpegDecoder.IOContext.bufferSize fs.content.length := by
    simp [fread, fileSize, hpos]
  have hkpos : ¬ ((fread fs FFmpegDecoder.IOContext.bufferSize).1 = 0) := by
    rw [hk]
    have : 0 < min FFmpegDecoder.IOContext.bufferSize fs.content.length := by
      have hb : 0 < FFmpegDecoder.IOContext.bufferSize := by decide
      omega
    omega
  have hbz : ¬ (FFmpegDecoder.IOContext.bufferSize = 0) := by decide
  refine ⟨by rw [hk]; omega, ?_, ?_, ?_, ?_⟩ <;>
    simp [FFmpegDecoder.IOContext.initAVFormatContext, fread, fileSize,
      _fseeki64, seekTarget, SEEK_SET, hpos, hne, hbz]

/-- C8 witness: on the three-byte file at offset zero the probe sees the
three bytes and the position is rewound to zero. -/
theorem c8_witness :
    (fread file123 FFmpegDecoder.IOContext.bufferSize).1 ≤
      FFmpegDecoder.IOContext.bufferSize ∧
    (FFmpegDecoder.IOContext.initAVFormatContext sampleProbe file123
        sampleCtx).1.pb_set = true ∧
    (FFmpegDecoder.IOContext.initAVFormatContext sampleProbe file123
        sampleCtx).1.custom_io_flag = true ∧
    (FFmpegDecoder.IOContext.initAVFormatContext sampleProbe file123
        sampleCtx).1.iformat =
      some (sampleProbe
        (file123.content.take
          (min FFmpegDecoder.IOContext.bufferSize file123.content.length))
        (FFmpegDecoder.IOContext.bufferSize - 1)) ∧
    (FFmpegDecoder.IOContext.initAVFormatContext sampleProbe file123
        sampleCtx).2.pos = 0 :=
  c8_probe_and_rewind sampleProbe file123 sampleCtx rfl (by simp [file123])

/-- C4: during codec-context setup with the remaining external calls
succeeding, exactly one of two outcomes holds; if hardware initialization
succeeds, the hardware buffer-allocation and pixel-format callbacks are
installed, hardware-valid is true and the codec thread count stays 1; if it
fails, the negotiation record is discarded and the codec is configured for
2-thread fast software decode with hardware-valid false. -/
theorem c4_hw_negotiation (inp : ResetVideoInput) (validHW0 : Bool)
    (hn : 0 ≤ inp.videoStreamNumber) (ha : inp.allocOk = true)
    (hp : inp.paramsOk = true) (hc : inp.codecFound = true)
    (ho : inp.codecOpenOk = true) (hw : 0 < inp.width)
    (hh : 0 < inp.height) :
    (inp.dxva2Ok = true →
      (FFmpegDecoder.resetVideoProcessing inp validHW0).1 = true ∧
      (FFmpegDecoder.resetVideoProcessing inp validHW0).2.2 = true ∧
      ∃ c, (FFmpegDecoder.resetVideoProcessing inp validHW0).2.1 = some c ∧
        c.hw_get_buffer2 = true ∧ c.hw_get_format = true ∧
        c.thread_count = 1) ∧
    (inp.dxva2Ok = false →
      (FFmpegDecoder.resetVideoProcessing inp validHW0).1 = true ∧
      (FFmpegDecoder.resetVideoProcessing inp validHW0).2.2 = false ∧
      ∃ c, (FFmpegDecoder.resetVideoProcessing inp validHW0).2.1 = some c ∧
        c.ist_attached = false ∧ c.thread_count = 2 ∧
        c.flags2_fast = true) := by
  have h1 : ¬ (inp.width ≤ 0) := not_le.mpr hw
  have h2 : ¬ (inp.height ≤ 0) := not_le.mpr hh
  constructor <;> intro hd <;>
    simp [FFmpegDecoder.resetVideoProcessing, hn, ha, hp, hc, ho, hd, h1, h2]

/-- C4 witness: with every external call succeeding and dxva2_init
reporting success, the callbacks are installed, hardware-valid is true and
the thread count stays 1. -/
theorem c4_witness :
    (FFmpegDecoder.resetVideoProcessing hwResetInput false).1 = true ∧
    (FFmpegDecoder.resetVideoProcessing hwResetInput false).2.2 = true ∧
    ∃ c, (FFmpegDecoder.resetVideoProcessing hwResetInput false).2.1 =
        some c ∧
      c.hw_get_buffer2 = true ∧ c.hw_get_format = true ∧
      c.thread_count = 1 :=
  (c4_hw_negotiation hwResetInput false (by decide) rfl rfl rfl rfl
    (by decide) (by decide)).1 rfl

/-- C1: the claim says that media with no decodable video stream makes
openDecoder return false with no listener events and no workers; on the
audio-only input the code instead only logs at the m_videoStreamNumber ==
-1 branch and then dereferences the null timeStream pointer while computing
m_startTime (line 492) - undefined behavior, modelled as the none outcome,
not a false return. -/
theorem c1_no_video_stream_crash :
    FFmpegDecoder.openDecoder audioOnlyInput = none := by
  rfl

set_option maxHeartbeats 2000000 in
/-- C7: whenever openDecoder returns (does not crash), a successful open
with a registered listener fires fileLoaded and then exactly one
changedFramePosition(start, start, duration + start), and a failed open
fires no events at all. -/
theorem c7_open_events (inp : MediaInput) (out : OpenOutcome)
    (hrun : FFmpegDecoder.openDecoder inp = some out) :
    (out.success = true → inp.listener = true →
      out.events = [ListenerEvent.fileLoaded,
        ListenerEvent.changedFramePosition out.m_startTime out.m_startTime
          (out.m_duration + out.m_startTime)]) ∧
    (out.success = false → out.events = []) := by
  simp only [FFmpegDecoder.openDecoder] at hrun
  repeat' split at hrun
  all_goals
    first
    | (injection hrun with h
       subst h
       refine ⟨fun hs => ?_, fun hs => ?_⟩ <;>
         first
         | rfl
         | (intro hl; simp [openEvents, hl]; done)
         | simp [openFailed] at hs)
    | injection hrun

/-- C7 witness: the 10-second file source with start 0 opens successfully
and fires fileLoaded then changedFramePosition(0, 0, 10) exactly once. -/
theorem c7_witness :
    FFmpegDecoder.openDecoder videoOpenInput = some videoOpenOutcome ∧
    videoOpenOutcome.events = [ListenerEvent.fileLoaded,
      ListenerEvent.changedFramePosition videoOpenOutcome.m_startTime
        videoOpenOutcome.m_startTime
        (videoOpenOutcome.m_duration + videoOpenOutcome.m_startTime)] :=
  ⟨by rfl,
   (c7_open_events videoOpenInput videoOpenOutcome (by rfl)).1 rfl rfl⟩

end FFmpegClient
